import Mathlib

/-!
# Verification of the OMXeditor data-document core

Shallow embedding of the geometric resampling / alignment engine of
`datadoc.py` and of the Fourier stripe filter of `cmos_stripe_filter.py`,
together with theorems settling the specification claims.

Conventions:
  - numpy float arithmetic is modelled over `ℝ` (exact reals), complex FFT
    arithmetic over `ℂ`;
  - integer vectors (crop bounds, view indices, offsets) over `ℤ`;
  - a numpy ndarray is modelled either by its shape (a `List ℕ` or `List ℤ`)
    when only shape/layout is at stake, or as a total function from
    coordinates to `ℝ` (out-of-range inputs are simply unused);
  - the result of slicing a 5D array is modelled as a function of the full
    canonical (W,T,Z,Y,X) coordinate vector in which the fixed axes' inputs
    are ignored.
-/

open scoped Matrix

/-- Per-wavelength alignment parameters, in the order they are stored in
`DataDoc.alignParams`: dx, dy, dz, angle (degrees), zoom. -/
structure AlignParams where
  dx : ℝ
  dy : ℝ
  dz : ℝ
  angle : ℝ
  zoom : ℝ

/-- The data-document state needed by the claims: per-axis sizes in canonical
(W,T,Z,Y,X) order, the canonical 5D pixel array, the per-wavelength alignment
parameter table, the crop bounds and the current view index
(`DataDoc.__init__` fields of `datadoc.py`). -/
structure DataDoc where
  size : Fin 5 → ℕ
  imageArray : ℕ → ℕ → ℕ → ℕ → ℕ → ℝ
  alignParams : ℕ → AlignParams
  cropMin : Fin 5 → ℤ
  cropMax : Fin 5 → ℤ
  curViewIndex : Fin 5 → ℤ

/-- The 4×4 homogeneous transformation matrix built by
`DataDoc.getTransformationMatrices` for one wavelength's parameters:
`zoom * [[cosθ, sinθ, 0, dx], [-sinθ, cosθ, 0, dy], [0, 0, 1, dz], [0, 0, 0, 1]]`
with `θ = angle * π / 180` (`datadoc.py` lines 281–289). -/
noncomputable def getTransformationMatrix (p : AlignParams) : Matrix (Fin 4) (Fin 4) ℝ :=
  let angle := p.angle * Real.pi / 180
  let cosTheta := Real.cos angle
  let sinTheta := Real.sin angle
  p.zoom • !![cosTheta, sinTheta, 0, p.dx;
              -sinTheta, cosTheta, 0, p.dy;
              0, 0, 1, p.dz;
              0, 0, 0, 1]

/-- The per-wavelength list of transformation matrices built by
`DataDoc.getTransformationMatrices` (one entry per wavelength,
`for wavelength in xrange(self.numWavelengths)`). -/
noncomputable def getTransformationMatrices (d : DataDoc) :
    List (Matrix (Fin 4) (Fin 4) ℝ) :=
  (List.range (d.size 0)).map fun w => getTransformationMatrix (d.alignParams w)

/-- The numeric inverse computed in `DataDoc.mapCoords`
(`inverseTransforms = [numpy.linalg.inv(matrix) for matrix in transforms]`,
`datadoc.py` line 194), modelled as the matrix inverse over `ℝ`. -/
noncomputable def mapCoordsInverseTransform (p : AlignParams) : Matrix (Fin 4) (Fin 4) ℝ :=
  (getTransformationMatrix p)⁻¹

/-- Explicit right inverse of `getTransformationMatrix` for nonzero zoom:
the transposed rotation with negated, back-rotated translation, scaled by
`zoom⁻¹`. Used to prove invertibility. -/
noncomputable def transformationMatrixInv (p : AlignParams) : Matrix (Fin 4) (Fin 4) ℝ :=
  let angle := p.angle * Real.pi / 180
  let cosTheta := Real.cos angle
  let sinTheta := Real.sin angle
  p.zoom⁻¹ • !![cosTheta, -sinTheta, 0, sinTheta * p.dy - cosTheta * p.dx;
                sinTheta, cosTheta, 0, -(sinTheta * p.dx) - cosTheta * p.dy;
                0, 0, 1, -p.dz;
                0, 0, 0, 1]

/-- The per-axis selector list built in the `shouldTransform = False` branch of
`DataDoc.takeSlice` (`datadoc.py` lines 166–171): the first entry is the
`Ellipsis` placed at index 0 (wavelength is never fixed there), and each axis
1–4 contributes its fixed coordinate when present in `axes`, else `Ellipsis`.
`none` models `Ellipsis` (pass-through), `some v` a fixed coordinate. -/
def sliceSelectors (axes : Fin 5 → Option ℕ) : Fin 5 → Option ℕ :=
  fun i => if i = 0 then none else axes i

/-- Indexing a 5D array by a selector list, as `self.imageArray[slices]` does:
an axis with a fixed coordinate is collapsed to it, an `Ellipsis` axis stays
free. The result is modelled as a function of the full canonical coordinate
vector, the collapsed axes' inputs being ignored. -/
def applySlices (img : ℕ → ℕ → ℕ → ℕ → ℕ → ℝ) (sel : Fin 5 → Option ℕ) :
    (Fin 5 → ℕ) → ℝ :=
  fun c => img ((sel 0).getD (c 0)) ((sel 1).getD (c 1)) ((sel 2).getD (c 2))
    ((sel 3).getD (c 3)) ((sel 4).getD (c 4))

/-- The `shouldTransform = False` branch of `DataDoc.takeSlice`
(`datadoc.py` lines 163–172): build the selector list and index the canonical
array with it. -/
def takeSliceNoTransform (d : DataDoc) (axes : Fin 5 → Option ℕ) :
    (Fin 5 → ℕ) → ℝ :=
  applySlices d.imageArray (sliceSelectors axes)

/-- Direct integer indexing of the canonical 5D array at the fixed
coordinates, as the spec words it: every axis fixed by `axes` is collapsed to
its fixed coordinate, every other axis stays free. -/
def directIndexSlice (d : DataDoc) (axes : Fin 5 → Option ℕ) :
    (Fin 5 → ℕ) → ℝ :=
  fun c => d.imageArray ((axes 0).getD (c 0)) ((axes 1).getD (c 1))
    ((axes 2).getD (c 2)) ((axes 3).getD (c 3)) ((axes 4).getD (c 4))

/-- `DataDoc.moveSliceLines` (`datadoc.py` lines 437–441): each component of
the view index is moved by its offset only when the proposed value stays
inside `[0, size[i])`; otherwise that component is left unchanged. -/
def moveSliceLines (d : DataDoc) (offset : Fin 5 → ℤ) : DataDoc :=
  { d with curViewIndex := fun i =>
      let targetVal := d.curViewIndex i + offset i
      if 0 ≤ targetVal ∧ targetVal < (d.size i : ℤ) then targetVal
      else d.curViewIndex i }

/-- `DataDoc.moveCropbox` (`datadoc.py` lines 446–454): add the offset to the
selected bound vector, then clamp every component to `[0, size[i]]` via
`max(0, min(self.size[i], val))`. -/
def moveCropbox (d : DataDoc) (offset : Fin 5 → ℤ) (isMin : Bool) : DataDoc :=
  if isMin then
    { d with cropMin := fun i => max 0 (min (d.size i : ℤ) (d.cropMin i + offset i)) }
  else
    { d with cropMax := fun i => max 0 (min (d.size i : ℤ) (d.cropMax i + offset i)) }

/-- The wavelength-list default of `DataDoc.alignAndCrop`
(`if not wavelengths: wavelengths = range(self.size[0])`,
`datadoc.py` lines 320–321). -/
def alignAndCropWavelengths (d : DataDoc) (wavelengths : List ℕ) : List ℕ :=
  if wavelengths = [] then List.range (d.size 0) else wavelengths

/-- The timepoint-list default of `DataDoc.alignAndCrop`
(`if not timepoints: timepoints = range(self.cropMin[1], self.cropMax[1])`,
`datadoc.py` lines 322–323). -/
def alignAndCropTimepoints (d : DataDoc) (timepoints : List ℤ) : List ℤ :=
  if timepoints = [] then
    (List.range (d.cropMax 1 - d.cropMin 1).toNat).map fun k : ℕ => d.cropMin 1 + (k : ℤ)
  else timepoints

/-- The list of all timepoints of a document, `0 .. size[1]-1`, as the spec's
"all timepoints" reads. -/
def allTimepointsList (d : DataDoc) : List ℤ :=
  (List.range (d.size 1)).map fun t => (t : ℤ)

/-- The cropped shape computed at the top of `DataDoc.alignAndCrop`
(`datadoc.py` lines 326–331): `[len(wavelengths)]` followed by
`cropMax[i] - cropMin[i]` for axes 1–4, with the first two entries then
swapped, giving (T, W, Z, Y, X) order. -/
def croppedShape (d : DataDoc) (wavelengths : List ℕ) : List ℤ :=
  let pre : List ℤ := [(wavelengths.length : ℤ), d.cropMax 1 - d.cropMin 1,
    d.cropMax 2 - d.cropMin 2, d.cropMax 3 - d.cropMin 3, d.cropMax 4 - d.cropMin 4]
  [pre.getD 1 0, pre.getD 0 0, pre.getD 2 0, pre.getD 3 0, pre.getD 4 0]

/-- Modelled from the spec: `Priithon.Mrc.dtype2MrcMode` is not under `src/`.
The spec fixes the exported pixel type to "always 32-bit float pixel type";
the MRC mode code of 32-bit float is 2. -/
def dtype2MrcMode_float32 : ℤ := 2

/-- The header fields written by `DataDoc.alignAndCrop` before streaming
(`datadoc.py` lines 333–343): `Num` from the cropped shape, `NumTimes` from
the document's full time extent `self.size[1]`, `NumWaves` from the selected
wavelength count, extended-header size `next` zero, `ImgSequence` 2 and
32-bit float pixel type. -/
structure MrcHeaderModel where
  Num : ℤ × ℤ × ℤ
  NumTimes : ℤ
  NumWaves : ℤ
  next : ℤ
  ImgSequence : ℤ
  PixelType : ℤ

/-- The header computation of `DataDoc.alignAndCrop` (`datadoc.py`
lines 333–343). -/
def alignAndCropHeader (d : DataDoc) (wavelengths : List ℕ) : MrcHeaderModel :=
  let ws := alignAndCropWavelengths d wavelengths
  let cs := croppedShape d ws
  { Num := (cs.getD 4 0, cs.getD 3 0, cs.getD 2 0 * cs.getD 1 0 * cs.getD 0 0)
    NumTimes := (d.size 1 : ℤ)
    NumWaves := (ws.length : ℤ)
    next := 0
    ImgSequence := 2
    PixelType := dtype2MrcMode_float32 }

/-- numpy element dtypes relevant here. -/
inductive NpDtype
  | float32
  | other
deriving DecidableEq

/-- The element dtype of the array returned by `DataDoc.alignAndCrop` with no
save path: `numpy.empty(croppedShape, numpy.float32)` filled with volumes cast
by `.astype(numpy.float32)`, and `transpose` preserves dtype
(`datadoc.py` lines 346, 383, 399). -/
def alignAndCropOutputDtype : NpDtype := NpDtype.float32

/-- The shape of the array returned by `DataDoc.alignAndCrop` with no save
path: the cropped (T,W,Z,Y,X)-shaped accumulator transposed by
`[1, 0, 2, 3, 4]` (`datadoc.py` line 399), i.e. (W,T,Z,Y,X) order. -/
def alignAndCropOutputShape (d : DataDoc) (wavelengths : List ℕ) : List ℤ :=
  let cs := croppedShape d (alignAndCropWavelengths d wavelengths)
  [cs.getD 1 0, cs.getD 0 0, cs.getD 2 0, cs.getD 3 0, cs.getD 4 0]

/-- The 3D volume extracted for the sample at list position `k` of the
wavelength list in the export loop of `DataDoc.alignAndCrop`
(`volume = self.imageArray[wavelengths[wavelength]][timepoint]`,
`datadoc.py` line 368): pixels are read at wavelength `wavelengths[k]`. -/
def alignAndCropSampleVolume (d : DataDoc) (wavelengths : List ℕ) (timepoint : ℕ)
    (k : Fin wavelengths.length) : ℕ → ℕ → ℕ → ℝ :=
  fun z y x => d.imageArray (wavelengths.get k) timepoint z y x

/-- The alignment-parameter row read for the sample at list position `k` in
the export loop of `DataDoc.alignAndCrop`
(`dx, dy, dz, angle, zoom = self.alignParams[wavelength]` with `wavelength`
ranging over `range(len(wavelengths))`, `datadoc.py` lines 367–370): row `k`
itself, not row `wavelengths[k]`. -/
def alignAndCropSampleParams (d : DataDoc) (wavelengths : List ℕ)
    (k : Fin wavelengths.length) : AlignParams :=
  d.alignParams (k : ℕ)

/-- The dz value actually used for one sample in `DataDoc.alignAndCrop`
(`if dz and self.size[2] == 1: dz = 0`, `datadoc.py` lines 371–375): dz is
replaced by 0 exactly when it is nonzero and the Z extent is 1. -/
noncomputable def alignAndCropEffectiveDz (p : AlignParams) (sizeZ : ℕ) : ℝ :=
  if p.dz ≠ 0 ∧ sizeZ = 1 then 0 else p.dz

/-- Modelled from the spec: `util.transformArray` is not under `src/`. Per
spec §4.4 step 2 the forward transform resamples at integer output
coordinates, and a pure Z-translation by dz makes output plane z read input
plane z - dz, out-of-range lookups producing the fill value ("a translate of
a single-slice volume would otherwise eliminate all data").
`zLookupInRange sizeZ dz z` states that output plane z of a sizeZ-deep volume
reads stored data rather than fill. -/
def zLookupInRange (sizeZ : ℕ) (dz : ℝ) (z : ℕ) : Prop :=
  0 ≤ (z : ℝ) - dz ∧ (z : ℝ) - dz ≤ (sizeZ : ℝ) - 1

/-- Errors that `DataDoc.getImageArray` can actually signal: a `ValueError`
from `sequence.index(key)` when a canonical axis letter is absent, or a numpy
transpose error when the axis list does not match the array's dimensions. -/
inductive GetImageArrayError
  | missingAxis (c : Char)
  | axesMismatch
deriving DecidableEq

/-- The axis padding loop of `DataDoc.getImageArray` (`datadoc.py`
lines 82–88): for wavelength then time, if the declared size is 1, append a
length-1 axis at the end of the array and the axis letter to the order
string. -/
def padWT (rawShape : List ℕ) (sequence : List Char) (sizeW sizeT : ℕ) :
    List ℕ × List Char :=
  let p1 := if sizeW = 1 then (rawShape ++ [1], sequence ++ ['w']) else (rawShape, sequence)
  if sizeT = 1 then (p1.1 ++ [1], p1.2 ++ ['t']) else p1

/-- `DataDoc.getImageArray` (`datadoc.py` lines 74–94) at the shape level: pad
the raw array, build the axis ordering via `sequence.index(key)` for each
canonical letter (a missing letter raises `ValueError`), and transpose, which
numpy rejects unless the 5 axis positions match the array's dimension count.
The returned value is the transposed shape. No element-count validation is
performed anywhere. -/
def getImageArray (rawShape : List ℕ) (sequence : List Char) (size : Fin 5 → ℕ) :
    Except GetImageArrayError (List ℕ) :=
  let rs := (padWT rawShape sequence (size 0) (size 1)).1
  let sq := (padWT rawShape sequence (size 0) (size 1)).2
  match (['w', 't', 'z', 'y', 'x'].mapM fun c =>
      if c ∈ sq then Except.ok (sq.indexOf c)
      else Except.error (GetImageArrayError.missingAxis c)) with
  | Except.error e => Except.error e
  | Except.ok ordering =>
      if rs.length = 5 ∧ ∀ o ∈ ordering, o < rs.length then
        Except.ok (ordering.map fun o => rs.getD o 0)
      else Except.error GetImageArrayError.axesMismatch

/-- The declared element count of a document, the product of the five
per-axis sizes. -/
def declaredElementCount (size : Fin 5 → ℕ) : ℕ :=
  (List.ofFn size).prod

/-- The unnormalized 2D discrete Fourier transform computed by
`numpy.fft.fft2`: `X[k,l] = Σ_{m,n} x[m,n]·exp(-2πi(k·m/M + l·n/N))`. -/
noncomputable def fft2 {M N : ℕ} (x : Fin M → Fin N → ℂ) : Fin M → Fin N → ℂ :=
  fun k l => ∑ m : Fin M, ∑ n : Fin N, x m n *
    Complex.exp (-(2 * (Real.pi : ℂ) * Complex.I) *
      (((k : ℕ) : ℂ) * ((m : ℕ) : ℂ) / (M : ℂ) + ((l : ℕ) : ℂ) * ((n : ℕ) : ℂ) / (N : ℂ)))

/-- The normalized 2D inverse discrete Fourier transform computed by
`numpy.fft.ifft2`: `x[m,n] = (1/(M·N))·Σ_{k,l} X[k,l]·exp(2πi(k·m/M + l·n/N))`. -/
noncomputable def ifft2 {M N : ℕ} (X : Fin M → Fin N → ℂ) : Fin M → Fin N → ℂ :=
  fun m n => (∑ k : Fin M, ∑ l : Fin N, X k l *
    Complex.exp ((2 * (Real.pi : ℂ) * Complex.I) *
      (((k : ℕ) : ℂ) * ((m : ℕ) : ℂ) / (M : ℂ) + ((l : ℕ) : ℂ) * ((n : ℕ) : ℂ) / (N : ℂ))))
    / ((M : ℂ) * (N : ℂ))

/-- The `numpy.fft.fftshift` index map on one axis of extent M: output index i
reads input index `(i - ⌊M/2⌋) mod M` (a roll by `⌊M/2⌋`). -/
def fftshiftIdx (M : ℕ) (i : Fin M) : Fin M :=
  ⟨((i : ℕ) + (M - M / 2)) % M, Nat.mod_lt _ i.pos⟩

/-- The `numpy.fft.ifftshift` index map on one axis of extent M: output index
i reads input index `(i + ⌊M/2⌋) mod M` (a roll by `-⌊M/2⌋`). -/
def ifftshiftIdx (M : ℕ) (i : Fin M) : Fin M :=
  ⟨((i : ℕ) + M / 2) % M, Nat.mod_lt _ i.pos⟩

/-- `numpy.fft.fftshift` applied to both axes of a 2D grid. -/
noncomputable def fftshift2 {M N : ℕ} (X : Fin M → Fin N → ℂ) : Fin M → Fin N → ℂ :=
  fun k l => X (fftshiftIdx M k) (fftshiftIdx N l)

/-- `numpy.fft.ifftshift` applied to both axes of a 2D grid. -/
noncomputable def ifftshift2 {M N : ℕ} (X : Fin M → Fin N → ℂ) : Fin M → Fin N → ℂ :=
  fun k l => X (ifftshiftIdx M k) (ifftshiftIdx N l)

/-- The scalar mean of a 2D real array (`numpy.ndarray.mean`). -/
noncomputable def mean2 {M N : ℕ} (g : Fin M → Fin N → ℝ) : ℝ :=
  (∑ m : Fin M, ∑ n : Fin N, g m n) / ((M : ℝ) * (N : ℝ))

/-- `filter_stripes` of `cmos_stripe_filter.py` (lines 84–95): center the 2D
DFT of the plane with `fftshift`; in horizontal mode assign 1.0 to the single
column at `xc = shape[1]/2` (`img_f[:, xc:xc+1] = 1.0`), in vertical mode
assign 1.0 to the single row at `yc = shape[0]/2`; uncenter with `ifftshift`,
inverse-transform, take the real part, and return the filtered plane plus the
scalar mean of `(original - filtered)`. -/
noncomputable def filter_stripes {M N : ℕ} (yx_slice : Fin M → Fin N → ℝ)
    (horizontal : Bool) : Fin M → Fin N → ℝ :=
  let img_f := fftshift2 (fft2 (fun m n => ((yx_slice m n : ℝ) : ℂ)))
  let img_masked : Fin M → Fin N → ℂ :=
    if horizontal then fun k l => if (l : ℕ) = N / 2 then 1 else img_f k l
    else fun k l => if (k : ℕ) = M / 2 then 1 else img_f k l
  let img_filtered : Fin M → Fin N → ℝ :=
    fun m n => (ifft2 (ifftshift2 img_masked) m n).re
  fun m n => img_filtered m n + mean2 (fun m n => yx_slice m n - img_filtered m n)

/-- Assigning a constant to the single column at index `j0` of a 2D frequency
grid. -/
def setColumn {M N : ℕ} (j0 : ℕ) (v : ℂ) (X : Fin M → Fin N → ℂ) :
    Fin M → Fin N → ℂ :=
  fun k l => if (l : ℕ) = j0 then v else X k l

/-- Assigning a constant to the single row at index `i0` of a 2D frequency
grid. -/
def setRow {M N : ℕ} (i0 : ℕ) (v : ℂ) (X : Fin M → Fin N → ℂ) :
    Fin M → Fin N → ℂ :=
  fun k l => if (k : ℕ) = i0 then v else X k l

/-- The stripe-filter pipeline exactly as claim C5 words it: centered 2D DFT,
the single center ROW of the frequency grid ZEROED in horizontal-stripe mode
(the single center COLUMN in vertical-stripe mode), inverse transform, real
part, plus the scalar mean of (original − filtered) added to every pixel. -/
noncomputable def claimStripeFilter {M N : ℕ} (yx_slice : Fin M → Fin N → ℝ)
    (horizontal : Bool) : Fin M → Fin N → ℝ :=
  let centered := fftshift2 (fft2 (fun m n => ((yx_slice m n : ℝ) : ℂ)))
  let masked := if horizontal then setRow (M / 2) 0 centered
    else setColumn (N / 2) 0 centered
  let filtered : Fin M → Fin N → ℝ :=
    fun m n => (ifft2 (ifftshift2 masked) m n).re
  fun m n => filtered m n + mean2 (fun m n => yx_slice m n - filtered m n)

/-- The amended pipeline: identical to the claim's pipeline except that the
single center COLUMN is SET TO 1.0 in horizontal-stripe mode (the single
center ROW in vertical-stripe mode). -/
noncomputable def amendedStripeFilter {M N : ℕ} (yx_slice : Fin M → Fin N → ℝ)
    (horizontal : Bool) : Fin M → Fin N → ℝ :=
  let centered := fftshift2 (fft2 (fun m n => ((yx_slice m n : ℝ) : ℂ)))
  let masked := if horizontal then setColumn (N / 2) 1 centered
    else setRow (M / 2) 1 centered
  let filtered : Fin M → Fin N → ℝ :=
    fun m n => (ifft2 (ifftshift2 masked) m n).re
  fun m n => filtered m n + mean2 (fun m n => yx_slice m n - filtered m n)

/-- Concrete 1×2 plane used to separate the claimed pipeline from the code:
pixel values (0, 2). -/
noncomputable def cexPlane : Fin 1 → Fin 2 → ℝ :=
  fun _ n => if n = 1 then 2 else 0

/-- Concrete document used by witnesses: 2 wavelengths, 3 timepoints,
4×5×6 spatial extent, synthetic pixel values, identity-with-offset alignment
at all wavelengths. -/
noncomputable def witnessDoc : DataDoc where
  size := ![2, 3, 4, 5, 6]
  imageArray := fun w t z y x => (w * 10000 + t * 1000 + z * 100 + y * 10 + x : ℕ)
  alignParams := fun _ => ⟨1, 2, 3, 45, 2⟩
  cropMin := fun _ => 0
  cropMax := fun i => (![2, 3, 4, 5, 6] : Fin 5 → ℕ) i
  curViewIndex := ![1, 0, 2, 2, 3]

/-- Concrete document used by counterexamples: all axes of extent 2, crop box
`[0,1)` on every axis (strictly inside `[0,2]`), view index 1 everywhere. -/
noncomputable def cropDoc : DataDoc where
  size := fun _ => 2
  imageArray := fun _ _ _ _ _ => 0
  alignParams := fun _ => ⟨0, 0, 0, 0, 1⟩
  cropMin := fun _ => 0
  cropMax := fun _ => 1
  curViewIndex := fun _ => 1

/-- Concrete document with 3 timepoints and time crop bounds `[1, 2)`, used to
exercise the timepoint default and the exported header. -/
noncomputable def timeCropDoc : DataDoc where
  size := ![1, 3, 2, 2, 2]
  imageArray := fun _ _ _ _ _ => 0
  alignParams := fun _ => ⟨0, 0, 0, 0, 1⟩
  cropMin := ![0, 1, 0, 0, 0]
  cropMax := ![1, 2, 2, 2, 2]
  curViewIndex := fun _ => 0

/-- The matrix `transformationMatrixInv` really is a right inverse of the
transformation matrix when zoom is nonzero. -/
theorem getTransformationMatrix_mul_inv (p : AlignParams) (hz : p.zoom ≠ 0) :
    getTransformationMatrix p * transformationMatrixInv p = 1 := by
  have h : Real.cos (p.angle * Real.pi / 180) ^ 2
      + Real.sin (p.angle * Real.pi / 180) ^ 2 = 1 :=
    Real.cos_sq_add_sin_sq _
  unfold getTransformationMatrix transformationMatrixInv
  rw [Matrix.smul_mul, Matrix.mul_smul, smul_smul, mul_inv_cancel₀ hz, one_smul]
  ext i j
  fin_cases i <;> fin_cases j <;>
    simp [Matrix.mul_apply, Fin.sum_univ_four, Matrix.one_apply,
      Matrix.vecHead, Matrix.vecTail] <;>
    first
      | linear_combination h
      | linear_combination (-p.dx) * h
      | linear_combination (-p.dy) * h
      | ring

/-- C1: For every wavelength and every alignment parameter tuple with nonzero
zoom, the 4×4 matrix produced by `getTransformationMatrices` is invertible, and
its product with the numeric inverse computed in `mapCoords` equals the 4×4
identity within tolerance `1e-9` in every entry. -/
theorem transformationMatrix_mul_inverse_identity (d : DataDoc) (w : ℕ)
    (hw : w < d.size 0) (hz : (d.alignParams w).zoom ≠ 0) :
    (getTransformationMatrices d).getD w 1 = getTransformationMatrix (d.alignParams w) ∧
    IsUnit (getTransformationMatrix (d.alignParams w)).det ∧
    ∀ i j : Fin 4,
      |(getTransformationMatrix (d.alignParams w) * mapCoordsInverseTransform (d.alignParams w)) i j
        - (1 : Matrix (Fin 4) (Fin 4) ℝ) i j| ≤ 1e-9 := by
  have hget : (getTransformationMatrices d).getD w 1
      = getTransformationMatrix (d.alignParams w) := by
    unfold getTransformationMatrices
    rw [List.getD_eq_getElem?_getD, List.getElem?_map, List.getElem?_range hw]
    rfl
  have hdet : IsUnit (getTransformationMatrix (d.alignParams w)).det :=
    Matrix.isUnit_det_of_right_inverse (getTransformationMatrix_mul_inv _ hz)
  have hmul : getTransformationMatrix (d.alignParams w)
      * mapCoordsInverseTransform (d.alignParams w) = 1 :=
    Matrix.mul_nonsing_inv _ hdet
  refine ⟨hget, hdet, fun i j => ?_⟩
  rw [hmul, sub_self, abs_zero]
  norm_num

/-- C1 witness: the hypotheses hold at wavelength 0 of `witnessDoc`
(dx=1, dy=2, dz=3, angle=45, zoom=2) and the theorem applies there. -/
theorem transformationMatrix_mul_inverse_identity_witness :
    (0 < witnessDoc.size 0 ∧ (witnessDoc.alignParams 0).zoom ≠ 0) ∧
    (IsUnit (getTransformationMatrix (witnessDoc.alignParams 0)).det ∧
      ∀ i j : Fin 4,
        |(getTransformationMatrix (witnessDoc.alignParams 0)
            * mapCoordsInverseTransform (witnessDoc.alignParams 0)) i j
          - (1 : Matrix (Fin 4) (Fin 4) ℝ) i j| ≤ 1e-9) := by
  have h0 : (0 : ℕ) < witnessDoc.size 0 := by
    simp [witnessDoc]
  have hz : (witnessDoc.alignParams 0).zoom ≠ 0 := by
    simp [witnessDoc]
  have h := transformationMatrix_mul_inverse_identity witnessDoc 0 h0 hz
  exact ⟨⟨h0, hz⟩, h.2.1, h.2.2⟩

/-- C2: When `shouldTransform` is false and the axes mapping does not touch
the wavelength axis (axis 0, which `takeSlice` never fixes there),
`takeSlice` returns exactly the array obtained by direct integer indexing of
the canonical 5D array at the fixed coordinates, and the result does not
depend on the alignment parameters. -/
theorem takeSlice_noTransform_direct (d : DataDoc) (axes : Fin 5 → Option ℕ)
    (h0 : axes 0 = none) :
    takeSliceNoTransform d axes = directIndexSlice d axes ∧
    ∀ params : ℕ → AlignParams,
      takeSliceNoTransform { d with alignParams := params } axes
        = takeSliceNoTransform d axes := by
  constructor
  · funext c
    simp [takeSliceNoTransform, directIndexSlice, applySlices, sliceSelectors, h0]
  · intro params
    rfl

/-- C2 witness: a WXY slice of `witnessDoc` at timepoint 0, Z = 1
(`axes = {1: 0, 2: 1}`) satisfies the hypothesis, the theorem applies, and
the value at the origin evaluates to the directly indexed pixel. -/
theorem takeSlice_noTransform_direct_witness :
    ((fun i : Fin 5 => if i = 1 then some 0 else if i = 2 then some 1 else none) 0
        = (none : Option ℕ)) ∧
    (takeSliceNoTransform witnessDoc
        (fun i : Fin 5 => if i = 1 then some 0 else if i = 2 then some 1 else none)
      = directIndexSlice witnessDoc
        (fun i : Fin 5 => if i = 1 then some 0 else if i = 2 then some 1 else none)) ∧
    takeSliceNoTransform witnessDoc
        (fun i : Fin 5 => if i = 1 then some 0 else if i = 2 then some 1 else none)
        (fun _ => 0)
      = witnessDoc.imageArray 0 0 1 0 0 := by
  refine ⟨rfl, (takeSlice_noTransform_direct witnessDoc _ rfl).1, ?_⟩
  simp [takeSliceNoTransform, applySlices, sliceSelectors, witnessDoc]

/-- C3: In `alignAndCrop`, the dz actually used for a sample is 0 whenever the
document's Z extent is 1 (so, per the spec-modelled `util.transformArray`
Z-lookup, the single stored plane is read rather than replaced by fill),
while for Z extent greater than 1 the stored dz is used unchanged; moreover
with the stored nonzero dz a single-slice volume's plane 0 would indeed fall
out of range. -/
theorem alignAndCrop_dz_suppression (p : AlignParams) (sizeZ : ℕ) :
    (sizeZ = 1 →
      alignAndCropEffectiveDz p sizeZ = 0 ∧
      zLookupInRange 1 (alignAndCropEffectiveDz p sizeZ) 0 ∧
      (p.dz ≠ 0 → ¬ zLookupInRange 1 p.dz 0)) ∧
    (1 < sizeZ → alignAndCropEffectiveDz p sizeZ = p.dz) := by
  constructor
  · rintro rfl
    refine ⟨?_, ?_, ?_⟩
    · unfold alignAndCropEffectiveDz
      by_cases hdz : p.dz = 0
      · simp [hdz]
      · simp [hdz]
    · unfold alignAndCropEffectiveDz zLookupInRange
      by_cases hdz : p.dz = 0
      · simp [hdz]
      · simp [hdz]
    · intro hdz hin
      rcases hin with ⟨h1, h2⟩
      rcases lt_or_gt_of_ne hdz with hlt | hgt
      · simp only [Nat.cast_zero, Nat.cast_one] at h1 h2
        nlinarith
      · simp only [Nat.cast_zero, Nat.cast_one] at h1 h2
        nlinarith
  · intro hgt
    unfold alignAndCropEffectiveDz
    have : sizeZ ≠ 1 := by omega
    simp [this]

/-- C3 witness: at dz = 1/2 the suppression fires for a Z-extent-1 document
(effective dz 0, lookup in range, raw lookup out of range) and does not fire
for Z extent 4. -/
theorem alignAndCrop_dz_suppression_witness :
    (alignAndCropEffectiveDz ⟨0, 0, 1/2, 0, 1⟩ 1 = 0 ∧
      zLookupInRange 1 (alignAndCropEffectiveDz ⟨0, 0, 1/2, 0, 1⟩ 1) 0 ∧
      ¬ zLookupInRange 1 ((1 : ℝ)/2) 0) ∧
    alignAndCropEffectiveDz ⟨0, 0, 1/2, 0, 1⟩ 4 = 1/2 := by
  have h1 := (alignAndCrop_dz_suppression ⟨0, 0, 1/2, 0, 1⟩ 1).1 rfl
  have h4 := (alignAndCrop_dz_suppression ⟨0, 0, 1/2, 0, 1⟩ 4).2 (by norm_num)
  exact ⟨⟨h1.1, h1.2.1, h1.2.2 (by norm_num)⟩, h4⟩

/-- C4 counterexample: starting from valid bounds
(`0 ≤ cropMin ≤ cropMax ≤ size` on every axis of `cropDoc`), one call to
`moveCropbox` with offset (2,0,0,0,0) on the min bound leaves
`cropMin[0] = 2 > 1 = cropMax[0]`: the claimed invariant
`cropMin[i] ≤ cropMax[i]` is not maintained. -/
theorem moveCropbox_violates_order :
    (∀ i : Fin 5, 0 ≤ cropDoc.cropMin i ∧ cropDoc.cropMin i ≤ cropDoc.cropMax i ∧
      cropDoc.cropMax i ≤ (cropDoc.size i : ℤ)) ∧
    (moveCropbox cropDoc ![2, 0, 0, 0, 0] true).cropMin 0 = 2 ∧
    (moveCropbox cropDoc ![2, 0, 0, 0, 0] true).cropMax 0 = 1 ∧
    ¬ ((moveCropbox cropDoc ![2, 0, 0, 0, 0] true).cropMin 0
        ≤ (moveCropbox cropDoc ![2, 0, 0, 0, 0] true).cropMax 0) := by
  refine ⟨fun i => ?_, ?_, ?_, ?_⟩
  · simp [cropDoc]
  · simp [moveCropbox, cropDoc]
  · simp [moveCropbox, cropDoc]
  · simp [moveCropbox, cropDoc]

/-- C4 amended: after `moveCropbox` the mutated bound vector is clamped into
`[0, size[i]]` on every axis (the other bound is untouched, and the ordering
`cropMin ≤ cropMax` is not enforced), and `moveSliceLines` keeps a valid view
index inside `[0, size[i])` on every axis, for every integer offset. -/
theorem moveCropbox_clamped_moveSliceLines_bounded (d : DataDoc) (offset : Fin 5 → ℤ) :
    (∀ i : Fin 5,
      0 ≤ (moveCropbox d offset true).cropMin i ∧
      (moveCropbox d offset true).cropMin i ≤ (d.size i : ℤ) ∧
      0 ≤ (moveCropbox d offset false).cropMax i ∧
      (moveCropbox d offset false).cropMax i ≤ (d.size i : ℤ) ∧
      (moveCropbox d offset true).cropMax i = d.cropMax i ∧
      (moveCropbox d offset false).cropMin i = d.cropMin i) ∧
    ((∀ i : Fin 5, 0 ≤ d.curViewIndex i ∧ d.curViewIndex i < (d.size i : ℤ)) →
      ∀ i : Fin 5, 0 ≤ (moveSliceLines d offset).curViewIndex i ∧
        (moveSliceLines d offset).curViewIndex i < (d.size i : ℤ)) := by
  constructor
  · intro i
    refine ⟨?_, ?_, ?_, ?_, rfl, rfl⟩
    · simp [moveCropbox]
    · simp [moveCropbox]
    · simp [moveCropbox]
    · simp [moveCropbox]
  · intro hvalid i
    simp only [moveSliceLines]
    by_cases hc : 0 ≤ d.curViewIndex i + offset i ∧ d.curViewIndex i + offset i < (d.size i : ℤ)
    · simp only [hc, if_pos]
      exact hc
    · simp only [hc, if_neg, not_false_iff]
      exact hvalid i

/-- C4 witness: the amended theorem applied to `cropDoc` with an offset whose
magnitude exceeds the full extent on every axis. -/
theorem moveCropbox_clamped_moveSliceLines_bounded_witness :
    (∀ i : Fin 5,
      0 ≤ (moveCropbox cropDoc ![5, -5, 5, -5, 5] true).cropMin i ∧
      (moveCropbox cropDoc ![5, -5, 5, -5, 5] true).cropMin i ≤ (cropDoc.size i : ℤ) ∧
      0 ≤ (moveCropbox cropDoc ![5, -5, 5, -5, 5] false).cropMax i ∧
      (moveCropbox cropDoc ![5, -5, 5, -5, 5] false).cropMax i ≤ (cropDoc.size i : ℤ) ∧
      (moveCropbox cropDoc ![5, -5, 5, -5, 5] true).cropMax i = cropDoc.cropMax i ∧
      (moveCropbox cropDoc ![5, -5, 5, -5, 5] false).cropMin i = cropDoc.cropMin i) ∧
    (∀ i : Fin 5, 0 ≤ (moveSliceLines cropDoc ![5, -5, 5, -5, 5]).curViewIndex i ∧
      (moveSliceLines cropDoc ![5, -5, 5, -5, 5]).curViewIndex i < (cropDoc.size i : ℤ)) := by
  have h := moveCropbox_clamped_moveSliceLines_bounded cropDoc ![5, -5, 5, -5, 5]
  exact ⟨h.1, h.2 (fun i => by simp [cropDoc])⟩

/-- C10: `moveSliceLines` updates each view-index component independently:
a component whose proposed value falls outside `[0, size[i])` keeps its
previous value, and a component whose proposed value is in range takes it. -/
theorem moveSliceLines_per_component (d : DataDoc) (offset : Fin 5 → ℤ) (i : Fin 5) :
    ((d.curViewIndex i + offset i < 0 ∨ (d.size i : ℤ) ≤ d.curViewIndex i + offset i) →
      (moveSliceLines d offset).curViewIndex i = d.curViewIndex i) ∧
    ((0 ≤ d.curViewIndex i + offset i ∧ d.curViewIndex i + offset i < (d.size i : ℤ)) →
      (moveSliceLines d offset).curViewIndex i = d.curViewIndex i + offset i) := by
  constructor
  · intro hout
    simp only [moveSliceLines]
    rw [if_neg]
    omega
  · intro hin
    simp only [moveSliceLines]
    rw [if_pos hin]

/-- C10 witness: on `cropDoc` (view index 1, size 2 per axis) an offset of -5
proposes -4, which is out of range, so the component stays at 1 — and in
particular is not saturated to the bound 0 — while an offset of -1 proposes
the in-range 0 and is taken. -/
theorem moveSliceLines_per_component_witness :
    (moveSliceLines cropDoc ![-5, 0, 0, 0, 0]).curViewIndex 0 = cropDoc.curViewIndex 0 ∧
    (moveSliceLines cropDoc ![-5, 0, 0, 0, 0]).curViewIndex 0 ≠ 0 ∧
    (moveSliceLines cropDoc ![-1, 0, 0, 0, 0]).curViewIndex 0
      = cropDoc.curViewIndex 0 + (-1) := by
  refine ⟨(moveSliceLines_per_component cropDoc ![-5, 0, 0, 0, 0] 0).1 ?_, ?_, ?_⟩
  · left
    simp [cropDoc]
  · have h := (moveSliceLines_per_component cropDoc ![-5, 0, 0, 0, 0] 0).1
      (by left; simp [cropDoc])
    rw [h]
    simp [cropDoc]
  · have h := (moveSliceLines_per_component cropDoc ![-1, 0, 0, 0, 0] 0).2
      (by simp [cropDoc])
    simpa [cropDoc] using h

/-- C6 counterexample: on `timeCropDoc` (3 timepoints, time crop `[1,2)`) an
empty timepoints argument defaults to the cropped range `[1]`, not to all
timepoints `[0, 1, 2]` of the document. -/
theorem alignAndCropTimepoints_default_not_all :
    alignAndCropTimepoints timeCropDoc [] = [1] ∧
    allTimepointsList timeCropDoc = [0, 1, 2] ∧
    alignAndCropTimepoints timeCropDoc [] ≠ allTimepointsList timeCropDoc := by
  refine ⟨?_, ?_, ?_⟩ <;>
    simp [alignAndCropTimepoints, allTimepointsList, timeCropDoc, List.range_succ]

/-- C6 amended: with an empty timepoints argument, `alignAndCrop` processes
exactly the timepoints inside the current time-axis crop bounds
`[cropMin[1], cropMax[1])`, for every document. -/
theorem alignAndCropTimepoints_default_cropRange (d : DataDoc) (t : ℤ) :
    t ∈ alignAndCropTimepoints d [] ↔ d.cropMin 1 ≤ t ∧ t < d.cropMax 1 := by
  unfold alignAndCropTimepoints
  rw [if_pos rfl, List.mem_map]
  constructor
  · rintro ⟨k, hk, rfl⟩
    rw [List.mem_range] at hk
    omega
  · rintro ⟨h1, h2⟩
    refine ⟨(t - d.cropMin 1).toNat, ?_, ?_⟩
    · rw [List.mem_range]
      omega
    · omega

/-- C9: In the export loop of `alignAndCrop`, the sample at list position `k`
reads its pixels at wavelength `wavelengths[k]` but its alignment parameters
at table row `k` (the position, not the wavelength index), and the two index
families coincide for every position exactly when the wavelength list is the
prefix `[0, 1, ..., len-1]`. -/
theorem alignAndCrop_params_by_position (d : DataDoc) (ws : List ℕ) (tp : ℕ)
    (k : Fin ws.length) :
    alignAndCropSampleParams d ws k = d.alignParams (k : ℕ) ∧
    alignAndCropSampleVolume d ws tp k
      = (fun z y x => d.imageArray (ws.get k) tp z y x) ∧
    ((∀ j : Fin ws.length, (j : ℕ) = ws.get j) ↔ ws = List.range ws.length) := by
  refine ⟨rfl, rfl, ?_, ?_⟩
  · intro hj
    apply List.ext_get
    · simp
    · intro n h1 h2
      rw [List.get_range]
      exact (hj ⟨n, h1⟩).symm
  · intro h j
    rw [List.get_of_eq h, List.get_range]

/-- C7: evaluation of the header and output-array facts at the failing input
`timeCropDoc` (3 timepoints, time crop `[1,2)`, defaulted wavelength and
timepoint lists). The written `NumTimes` is the document's full time extent 3
even though only 1 timepoint is selected and streamed; the other claimed
fields hold: `NumWaves` equals the selected wavelength count, the
extended-header size is 0, the pixel type is 32-bit float, and the in-memory
result is 5D in (W,T,Z,Y,X) order with 32-bit float dtype. -/
theorem alignAndCropHeader_numTimes_mismatch :
    (alignAndCropHeader timeCropDoc []).NumTimes = 3 ∧
    ((alignAndCropTimepoints timeCropDoc []).length : ℤ) = 1 ∧
    (alignAndCropHeader timeCropDoc []).NumTimes
      ≠ ((alignAndCropTimepoints timeCropDoc []).length : ℤ) ∧
    (alignAndCropHeader timeCropDoc []).NumWaves
      = ((alignAndCropWavelengths timeCropDoc []).length : ℤ) ∧
    (alignAndCropHeader timeCropDoc []).next = 0 ∧
    (alignAndCropHeader timeCropDoc []).PixelType = dtype2MrcMode_float32 ∧
    alignAndCropOutputShape timeCropDoc [] = [1, 1, 2, 2, 2] ∧
    alignAndCropOutputDtype = NpDtype.float32 := by
  refine ⟨?_, ?_, ?_, ?_, ?_, ?_, ?_, ?_⟩ <;>
    simp [alignAndCropHeader, alignAndCropTimepoints, alignAndCropWavelengths,
      alignAndCropOutputShape, alignAndCropOutputDtype, croppedShape,
      timeCropDoc, List.range_succ]

/-- C8 counterexample: a raw array of shape (2,5,3,3) with axis order "wzyx"
and declared sizes (2,1,2,3,3) — 90 raw elements against a declared product
of 36 — is accepted by `getImageArray` with no error: construction succeeds
even though the declared per-axis sizes do not multiply to the raw element
count, so no ShapeMismatch failure exists on that path. -/
theorem getImageArray_no_element_count_check :
    getImageArray [2, 5, 3, 3] ['w', 'z', 'y', 'x'] ![2, 1, 2, 3, 3]
      = Except.ok [2, 1, 5, 3, 3] ∧
    ([2, 5, 3, 3] : List ℕ).prod = 90 ∧
    declaredElementCount ![2, 1, 2, 3, 3] = 36 ∧
    ([2, 5, 3, 3] : List ℕ).prod ≠ declaredElementCount ![2, 1, 2, 3, 3] := by
  refine ⟨rfl, rfl, rfl, by decide⟩

/-- C8 amended: `getImageArray` performs no element-count validation at all —
for a fixed axis-order string and declared sizes, its success or failure
depends only on the number of raw axes, never on the raw per-axis extents
(hence never on whether the sizes multiply to the raw element count). -/
theorem getImageArray_outcome_ignores_sizes (rawShape rawShape' : List ℕ)
    (sequence : List Char) (size : Fin 5 → ℕ)
    (h : rawShape.length = rawShape'.length) :
    (getImageArray rawShape sequence size).isOk
      = (getImageArray rawShape' sequence size).isOk := by
  have hsq : (padWT rawShape sequence (size 0) (size 1)).2
      = (padWT rawShape' sequence (size 0) (size 1)).2 := by
    unfold padWT
    by_cases h0 : size 0 = 1 <;> by_cases h1 : size 1 = 1 <;> simp [h0, h1]
  have hlen : (padWT rawShape sequence (size 0) (size 1)).1.length
      = (padWT rawShape' sequence (size 0) (size 1)).1.length := by
    unfold padWT
    by_cases h0 : size 0 = 1 <;> by_cases h1 : size 1 = 1 <;> simp [h0, h1, h]
  simp only [getImageArray]
  rw [hsq]
  cases hm : (['w', 't', 'z', 'y', 'x'].mapM fun c =>
      if c ∈ (padWT rawShape' sequence (size 0) (size 1)).2 then
        Except.ok (List.indexOf c (padWT rawShape' sequence (size 0) (size 1)).2)
      else Except.error (GetImageArrayError.missingAxis c)) with
  | error e => rfl
  | ok ordering =>
      dsimp only
      rw [hlen]
      by_cases hc : (padWT rawShape' sequence (size 0) (size 1)).1.length = 5 ∧
          ∀ o ∈ ordering, o < (padWT rawShape' sequence (size 0) (size 1)).1.length
      · rw [if_pos hc, if_pos hc]
        rfl
      · rw [if_neg hc, if_neg hc]

/-- C8 amended witness: two raw shapes of equal axis count but different
extents (products 90 and 6561) give the same outcome. -/
theorem getImageArray_outcome_ignores_sizes_witness :
    ([2, 5, 3, 3] : List ℕ).length = ([9, 9, 9, 9] : List ℕ).length ∧
    (getImageArray [2, 5, 3, 3] ['w', 'z', 'y', 'x'] ![2, 1, 2, 3, 3]).isOk
      = (getImageArray [9, 9, 9, 9] ['w', 'z', 'y', 'x'] ![2, 1, 2, 3, 3]).isOk :=
  ⟨rfl, getImageArray_outcome_ignores_sizes _ _ _ _ rfl⟩

/-- Unfolding of `filter_stripes` in horizontal mode. -/
theorem filter_stripes_true_apply {M N : ℕ} (yx_slice : Fin M → Fin N → ℝ)
    (m : Fin M) (n : Fin N) :
    filter_stripes yx_slice true m n
      = (ifft2 (ifftshift2 (fun k l => if (l : ℕ) = N / 2 then 1
          else fftshift2 (fft2 (fun m n => ((yx_slice m n : ℝ) : ℂ))) k l)) m n).re
        + mean2 (fun m n => yx_slice m n
          - (ifft2 (ifftshift2 (fun k l => if (l : ℕ) = N / 2 then 1
              else fftshift2 (fft2 (fun m n => ((yx_slice m n : ℝ) : ℂ))) k l)) m n).re) :=
  rfl

/-- Unfolding of `claimStripeFilter` in horizontal mode. -/
theorem claimStripeFilter_true_apply {M N : ℕ} (yx_slice : Fin M → Fin N → ℝ)
    (m : Fin M) (n : Fin N) :
    claimStripeFilter yx_slice true m n
      = (ifft2 (ifftshift2 (setRow (M / 2) 0
          (fftshift2 (fft2 (fun m n => ((yx_slice m n : ℝ) : ℂ)))))) m n).re
        + mean2 (fun m n => yx_slice m n
          - (ifft2 (ifftshift2 (setRow (M / 2) 0
              (fftshift2 (fft2 (fun m n => ((yx_slice m n : ℝ) : ℂ)))))) m n).re) :=
  rfl

/-- The 2-point DFT of the counterexample plane (0,2): spectrum (2,-2). -/
theorem cex_fft_eval :
    fft2 (fun m n => ((cexPlane m n : ℝ) : ℂ))
      = fun (_ : Fin 1) (l : Fin 2) => if l = 1 then (-2 : ℂ) else 2 := by
  funext k l
  unfold fft2 cexPlane
  rw [Fin.sum_univ_one, Fin.sum_univ_two]
  fin_cases l
  · norm_num
  · norm_num
    rw [show -(2 * (Real.pi : ℂ) * Complex.I * (1 / 2)) = -((Real.pi : ℂ) * Complex.I) by ring]
    rw [Complex.exp_neg, Complex.exp_pi_mul_I]
    norm_num

/-- The masking step of `filter_stripes` on the counterexample spectrum. -/
theorem cex_mask_eval :
    (fun (k : Fin 1) (l : Fin 2) => if (l : ℕ) = 2 / 2 then (1 : ℂ)
      else fftshift2 (fft2 (fun m n => ((cexPlane m n : ℝ) : ℂ))) k l)
      = fun _ l => if l = 1 then (1 : ℂ) else -2 := by
  rw [cex_fft_eval]
  funext k l
  unfold fftshift2 fftshiftIdx
  fin_cases l <;> simp

/-- The masking step of the claimed pipeline on the counterexample spectrum:
everything is zeroed, because the single row of a 1-row grid is its center
row. -/
theorem cex_claim_mask_eval :
    setRow (1 / 2) 0 (fftshift2 (fft2 (fun m n => ((cexPlane m n : ℝ) : ℂ))))
      = fun (_ : Fin 1) (_ : Fin 2) => (0 : ℂ) := by
  funext k l
  unfold setRow
  have hk : (k : ℕ) = 0 := by omega
  simp [hk]

/-- Uncentering the masked counterexample spectrum. -/
theorem cex_ifftshift_eval :
    ifftshift2 (fun (_ : Fin 1) (l : Fin 2) => if l = 1 then (1 : ℂ) else -2)
      = fun _ l => if l = 1 then (-2 : ℂ) else 1 := by
  funext k l
  unfold ifftshift2 ifftshiftIdx
  fin_cases l <;> simp

/-- The inverse DFT of the uncentered masked counterexample spectrum:
pixel values (-1/2, 3/2). -/
theorem cex_ifft_eval (m : Fin 1) (n : Fin 2) :
    (ifft2 (fun (_ : Fin 1) (l : Fin 2) => if l = 1 then (-2 : ℂ) else 1) m n).re
      = if n = 1 then (3 / 2 : ℝ) else -1 / 2 := by
  unfold ifft2
  rw [Fin.sum_univ_one, Fin.sum_univ_two]
  fin_cases n
  · norm_num
  · norm_num
    rw [show 2 * (Real.pi : ℂ) * Complex.I * (1 / 2) = (Real.pi : ℂ) * Complex.I by ring]
    rw [Complex.exp_pi_mul_I]
    norm_num

/-- The inverse DFT of the all-zero grid is zero. -/
theorem cex_ifft_zero_eval (m : Fin 1) (n : Fin 2) :
    (ifft2 (ifftshift2 (fun (_ : Fin 1) (_ : Fin 2) => (0 : ℂ))) m n).re = 0 := by
  unfold ifft2 ifftshift2
  simp

/-- The code's filter returns 0 at pixel (0,0) of the counterexample plane. -/
theorem cex_filter_stripes_eval : filter_stripes cexPlane true 0 0 = 0 := by
  rw [filter_stripes_true_apply, cex_mask_eval, cex_ifftshift_eval]
  simp only [cex_ifft_eval]
  unfold mean2 cexPlane
  rw [Fin.sum_univ_one, Fin.sum_univ_two]
  norm_num

/-- The claimed pipeline returns 1 at pixel (0,0) of the counterexample
plane. -/
theorem cex_claimStripeFilter_eval : claimStripeFilter cexPlane true 0 0 = 1 := by
  rw [claimStripeFilter_true_apply, cex_claim_mask_eval]
  simp only [cex_ifft_zero_eval]
  unfold mean2 cexPlane
  rw [Fin.sum_univ_one, Fin.sum_univ_two]
  norm_num

/-- C5 counterexample: on the 1×2 plane (0,2) in horizontal-stripe mode the
code's `filter_stripes` returns 0 at pixel (0,0) (it reproduces the plane),
while the pipeline described by the claim — zero the single center ROW of the
centered spectrum in horizontal mode — returns 1 there: the claim
misdescribes the masking step (the code touches the center COLUMN, and
assigns 1.0 rather than zero). -/
theorem filter_stripes_ne_claimStripeFilter :
    filter_stripes cexPlane true 0 0 = 0 ∧
    claimStripeFilter cexPlane true 0 0 = 1 ∧
    filter_stripes cexPlane true 0 0 ≠ claimStripeFilter cexPlane true 0 0 := by
  refine ⟨cex_filter_stripes_eval, cex_claimStripeFilter_eval, ?_⟩
  rw [cex_filter_stripes_eval, cex_claimStripeFilter_eval]
  norm_num

/-- C5 amended: for every 2D plane and both modes, `filter_stripes` computes
the centered 2D discrete Fourier transform, assigns 1.0 to the single center
COLUMN (index ⌊N/2⌋) of the frequency grid in horizontal-stripe mode (the
single center ROW, index ⌊M/2⌋, in vertical-stripe mode), uncenters,
inverse-transforms, takes the real part, and returns that filtered plane with
the scalar mean of (original minus filtered) added to every pixel. -/
theorem filter_stripes_eq_amendedStripeFilter {M N : ℕ}
    (yx_slice : Fin M → Fin N → ℝ) (horizontal : Bool) :
    filter_stripes yx_slice horizontal = amendedStripeFilter yx_slice horizontal := by
  cases horizontal <;> rfl
